import Mathlib

/-!
# Verification of the multi-trade rack layout engine

Shallow embedding of the layout/constraint engine of the rack demo:
the level stacker and frame assembler (`buildRack`), the tier helpers
(`bottomBeamCenterY`), the duct and pipe placement (`buildDuct`,
`buildPipesFlexible`) from `nav.js`, and the parameter-array lifecycle
and constraint propagation (`syncArrays`, `refreshTierLimits`,
`updateGlobals`, `rebuildScene`, pipe-count editing) from `setupGUI.js`.

Numbers are embedded as exact rationals (`ℚ`); JavaScript's IEEE doubles
are modelled by exact arithmetic.  Mutation of the shared parameter
object is modelled by explicit state passing: each mutating routine of
the source becomes a function `Params → Params`.
-/

namespace RackDemo

/-! ## Unit helpers (nav.js: ft2m / in2m / ft2in) -/

def FT2M : ℚ := 3048 / 10000

def IN2M : ℚ := 254 / 10000

def ft2m (ft : ℚ) : ℚ := ft * FT2M

def in2m (inch : ℚ) : ℚ := inch * IN2M

def ft2in (ft : ℚ) : ℚ := ft * 12

/-- Clamp as in `THREE.MathUtils.clamp(value, min, max) = Math.max(min, Math.min(max, value))`. -/
def clampQ (v lo hi : ℚ) : ℚ := max lo (min hi v)

/-! ## Data model: the shared parameter aggregate -/

/-- One pipe descriptor `{ diam, side, vert }` (inches). -/
structure Pipe where
  diam : ℚ
  side : ℚ
  vert : ℚ
deriving Repr, DecidableEq

/-- The shared parameter aggregate mutated by the GUI and read by the
builders: corridor fields, rack-frame fields, and the parallel per-tier
arrays. -/
structure Params where
  corridorWidth  : ℚ
  corridorHeight : ℚ
  ceilingHeight  : ℚ
  bayCount       : ℕ
  bayWidth       : ℚ
  depth          : ℚ
  postSize       : ℚ
  beamSize       : ℚ
  topClearance   : ℚ
  tierCount      : ℕ
  tierHeights    : List ℚ
  ductEnabled    : List Bool
  ductWidths     : List ℚ
  ductHeights    : List ℚ
  ductOffsets    : List ℚ
  pipeEnabled    : List Bool
  pipesPerTier   : List (List Pipe)
deriving Repr, DecidableEq

attribute [ext] Pipe

attribute [ext] Params

/-- Source helper `tierHeightFt(p, idx) = p.tierHeights[idx-1]` (1-based tier index). -/
def tierHeightFt (p : Params) (idx : ℕ) : ℚ := p.tierHeights.getD (idx - 1) 0

/-! ## Level stacker (nav.js `buildRack`, beam-level loop)

The loop keeps a cursor that starts at `roofY` and, for tier `i`
(0-based), records `cursor - (i+1)*beamM - h - beamM/2` and then moves
the cursor down by the tier height. -/

def levelWalkList (beamM : ℚ) : List ℚ → ℚ → ℕ → List ℚ
  | [], _, _ => []
  | h :: rest, cursor, i =>
      (cursor - (i + 1) * beamM - h - beamM / 2) ::
        levelWalkList beamM rest (cursor - h) (i + 1)

/-- The roof level followed by the bottom-beam level of each tier, in the
order `buildRack` inserts them into its `levels` set. -/
def rackLevels (p : Params) : List ℚ :=
  (ft2m p.topClearance - in2m p.beamSize / 2) ::
    levelWalkList (in2m p.beamSize) ((p.tierHeights.map ft2m).take p.tierCount)
      (ft2m p.topClearance) 0

/-- Quantity `totalH` of `buildRack`: sum of tier heights plus `(tierCount-1)`
beam thicknesses (in metres; `tierCount - 1` is JavaScript arithmetic,
so it is `-1` for zero tiers). -/
def rackTotalH (p : Params) : ℚ :=
  (p.tierHeights.map ft2m).sum + ((p.tierCount : ℚ) - 1) * in2m p.beamSize

/-- Centre-Y used for every post in `buildRack`. -/
def postCenterY (p : Params) : ℚ :=
  ft2m p.topClearance -
    ((p.tierHeights.map ft2m).sum + ((p.tierCount : ℚ) + 1) * in2m p.beamSize) / 2

/-! ## tier helpers (nav.js `bottomBeamCenterY`) -/

def bbcLoop (beamM : ℚ) (hts : List ℚ) : ℚ → ℕ → ℕ → ℚ
  | y, _, 0 => y
  | y, i, n + 1 =>
      bbcLoop beamM hts (y - beamM / 2 - ft2m (hts.getD i 0) - beamM / 2) (i + 1) n

/-- Source helper `bottomBeamCenterY(p, idx)`: start at the roof-beam centre and step
down once per tier above `idx` (1-based). -/
def bottomBeamCenterY (p : Params) (idx : ℕ) : ℚ :=
  bbcLoop (in2m p.beamSize) p.tierHeights
    (ft2m p.topClearance - in2m p.beamSize / 2) 0 idx

/-- Top face of tier `idx`'s bottom beam (used by `buildDuct` and
`buildPipesFlexible`). -/
def tierBottomY (p : Params) (idx : ℕ) : ℚ :=
  bottomBeamCenterY p idx + in2m p.beamSize / 2

def tierTopY (p : Params) (idx : ℕ) : ℚ :=
  tierBottomY p idx + ft2m (p.tierHeights.getD (idx - 1) 0)

/-! ## Geometry primitives -/

/-- An axis-aligned box: centre position and extents. -/
structure Box where
  x : ℚ
  y : ℚ
  z : ℚ
  sx : ℚ
  sy : ℚ
  sz : ℚ
deriving Repr, DecidableEq

/-- A placed primitive of the output geometry list. -/
inductive Prim where
  | post (b : Box)
  | longBeam (b : Box)
  | transBeam (b : Box)
  | duct (tier : ℕ) (b : Box)
  | pipe (tier : ℕ) (y z r len : ℚ)
deriving Repr, DecidableEq

/-- The posts emitted by `buildRack`: bays left to right, back row then
front row. -/
def rackPosts (p : Params) : List Box :=
  (List.range (p.bayCount + 1)).flatMap (fun bay =>
    [-(ft2m p.depth / 2), ft2m p.depth / 2].map (fun z =>
      { x := -(ft2m ((p.bayCount : ℚ) * p.bayWidth)) / 2 + ft2m ((bay : ℚ) * p.bayWidth)
        y := postCenterY p
        z := z
        sx := in2m p.postSize
        sy := rackTotalH p
        sz := in2m p.postSize }))

/-- Longitudinal rails of `buildRack`: at the extreme levels only. -/
def rackLongBeams (p : Params) : List Box :=
  let lenM := ft2m ((p.bayCount : ℚ) * p.bayWidth)
  let beamM := in2m p.beamSize
  let top := (rackLevels p).foldl max (ft2m p.topClearance - beamM / 2)
  let bot := (rackLevels p).foldl min (ft2m p.topClearance - beamM / 2)
  [top, bot].flatMap (fun y =>
    [ft2m p.depth / 2, -(ft2m p.depth / 2)].map (fun z =>
      { x := 0, y := y, z := z
        sx := lenM + in2m p.postSize, sy := beamM, sz := beamM }))

/-- Transverse beams of `buildRack`: at every deduplicated level, once
per bay boundary. -/
def rackTransBeams (p : Params) : List Box :=
  let lenM := ft2m ((p.bayCount : ℚ) * p.bayWidth)
  let beamM := in2m p.beamSize
  (rackLevels p).dedup.flatMap (fun y =>
    (List.range (p.bayCount + 1)).map (fun i =>
      { x := -lenM / 2 + ft2m ((i : ℚ) * p.bayWidth), y := y, z := 0
        sx := beamM, sy := beamM, sz := ft2m p.depth + in2m p.postSize }))

/-! ## Duct builder (nav.js `buildDuct` + setupGUI.js rebuild loop) -/

/-- The box `buildDuct` creates for tier `tier` (1-based) with the given
width/height/offset in inches. -/
def buildDuctBox (p : Params) (tier : ℕ) (w h o : ℚ) : Box :=
  { x := 0
    y := tierBottomY p tier + in2m h / 2
    z := in2m o
    sx := ft2m ((p.bayCount : ℚ) * p.bayWidth) + in2m 4
    sy := in2m h
    sz := in2m w }

def ductPrimsAux (p : Params) : ℕ → List Bool → List Prim
  | _, [] => []
  | i, en :: rest =>
      (if en then
        [Prim.duct (i + 1) (buildDuctBox p (i + 1) (p.ductWidths.getD i 0)
          (p.ductHeights.getD i 0) (p.ductOffsets.getD i 0))]
      else []) ++ ductPrimsAux p (i + 1) rest

/-- The duct part of `rebuildScene`: one box per enabled duct, driven by
`p.ductEnabled.forEach`. -/
def ductPrims (p : Params) : List Prim := ductPrimsAux p 0 p.ductEnabled

/-! ## Pipe builder (nav.js `buildPipesFlexible`) -/

/-- The final resting Y of a pipe: base position `bottom + vert + r`
clamped into `[bottom + r, top - r]`. -/
def pipeY (p : Params) (tierIdx : ℕ) (pj : Pipe) : ℚ :=
  let rM := in2m pj.diam / 2
  clampQ (tierBottomY p tierIdx + in2m pj.vert + rM)
    (tierBottomY p tierIdx + rM) (tierTopY p tierIdx - rM)

/-- One cylinder per pipe of the tier. -/
def buildPipesFlexible (p : Params) (tierIdx : ℕ) (pipes : List Pipe) : List Prim :=
  pipes.map (fun pj =>
    Prim.pipe tierIdx (pipeY p tierIdx pj) (in2m pj.side) (in2m pj.diam / 2)
      (ft2m ((p.bayCount : ℚ) * p.bayWidth) + in2m 4))

def pipePrimsAux (p : Params) : ℕ → List Bool → List Prim
  | _, [] => []
  | i, en :: rest =>
      (if en then buildPipesFlexible p (i + 1) (p.pipesPerTier.getD i []) else []) ++
        pipePrimsAux p (i + 1) rest

/-- The pipe part of `rebuildScene`, driven by `p.pipeEnabled.forEach`. -/
def pipePrims (p : Params) : List Prim := pipePrimsAux p 0 p.pipeEnabled

/-- The flattened geometry list produced by one `rebuildScene` pass
(rack skeleton, then ducts, then pipes). -/
def geometryList (p : Params) : List Prim :=
  (rackPosts p).map Prim.post ++ (rackLongBeams p).map Prim.longBeam ++
    (rackTransBeams p).map Prim.transBeam ++ ductPrims p ++ pipePrims p

/-! ## Array lifecycle (setupGUI.js `syncArrays` and the pipe-count box) -/

/-- Resize helper `grow(arr, n, mk)`: push defaults while too short, then truncate to
`n`. -/
def grow {α : Type} (arr : List α) (n : ℕ) (mk : α) : List α :=
  (arr ++ List.replicate (n - arr.length) mk).take n

/-- Default pipe entry `{ diam:4, side:0, vert:4 }`. -/
def defaultPipe : Pipe := ⟨4, 0, 4⟩

/-- Lifecycle step `syncArrays()`: bring every per-tier array to exactly `tierCount`
entries. -/
def syncArrays (p : Params) : Params :=
  { p with
    tierHeights := grow p.tierHeights p.tierCount 2
    ductEnabled := grow p.ductEnabled p.tierCount false
    ductWidths := grow p.ductWidths p.tierCount 18
    ductHeights := grow p.ductHeights p.tierCount 16
    ductOffsets := grow p.ductOffsets p.tierCount 0
    pipeEnabled := grow p.pipeEnabled p.tierCount false
    pipesPerTier := grow p.pipesPerTier p.tierCount [defaultPipe] }

/-- The pipe-count spinner: `while(arr.length < n) arr.push(default);
arr.length = n`. -/
def setPipeCount (arr : List Pipe) (n : ℕ) : List Pipe :=
  (arr ++ List.replicate (n - arr.length) defaultPipe).take n

/-! ## Constraint propagator (setupGUI.js `refreshTierLimits` /
`updateGlobals`) -/

/-- Offset half-range `sideLimit(diamIn)` of setupGUI.js. -/
def sideLimit (p : Params) (diamIn : ℚ) : ℚ :=
  ft2in p.depth / 2 - p.postSize / 2 - diamIn / 2

/-- The per-pipe clamp of `refreshTierLimits` (side offset into
`[-lim, lim]` with `lim = sideLimit(diam)`, vert capped at
`max 1 (clear height)`); it reads only `depth`, `postSize` and the tier
height from the aggregate, so those are its explicit inputs. -/
def clampPipe (depth postSize heightFt : ℚ) (pj : Pipe) : Pipe :=
  { pj with
    side := clampQ pj.side (-(ft2in depth / 2 - postSize / 2 - pj.diam / 2))
      (ft2in depth / 2 - postSize / 2 - pj.diam / 2)
    vert := min pj.vert (max 1 (ft2in heightFt)) }

/-- Clamp pass `refreshTierLimits(tIdx)` as a state transform: clamp the tier's
duct height, width and offset (if the duct is enabled), then clamp each
of the tier's pipes (if pipes are enabled). -/
def refreshTierLimits (p : Params) (t : ℕ) : Params :=
  let p1 :=
    if p.ductEnabled.getD t false then
      let hMax := max 1 (ft2in (tierHeightFt p (t + 1)))
      let newH := min (p.ductHeights.getD t 0) hMax
      let wMax := max 1 (ft2in p.depth - p.postSize)
      let newW := min (p.ductWidths.getD t 0) wMax
      let lim := sideLimit p newW
      let newO := clampQ (p.ductOffsets.getD t 0) (-lim) lim
      { p with
        ductHeights := p.ductHeights.set t newH
        ductWidths := p.ductWidths.set t newW
        ductOffsets := p.ductOffsets.set t newO }
    else p
  if p1.pipeEnabled.getD t false then
    { p1 with
      pipesPerTier := p1.pipesPerTier.set t
        ((p1.pipesPerTier.getD t []).map
          (clampPipe p1.depth p1.postSize (tierHeightFt p1 (t + 1)))) }
  else p1

/-- Propagation pass `updateGlobals()`: clamp `topClearance` into
`[max 1 (corridorHeight - ceilingHeight), corridorHeight]`, cap `depth`
at `corridorWidth`, then run `refreshTierLimits` on every tier folder. -/
def updateGlobals (p : Params) : Params :=
  let minTop := max 1 (p.corridorHeight - p.ceilingHeight)
  let maxTop := p.corridorHeight
  let p1 := { p with topClearance := clampQ p.topClearance minTop maxTop }
  let p2 := { p1 with depth := min p1.depth p1.corridorWidth }
  (List.range p2.tierHeights.length).foldl refreshTierLimits p2

/-! ## Read functions describing what `refreshTierLimits` stores at its
tier (used to state its normal form) -/

/-- Value stored into `ductHeights[t]` by `refreshTierLimits`. -/
def newDH (p : Params) (t : ℕ) : ℚ :=
  if p.ductEnabled.getD t false then
    min (p.ductHeights.getD t 0) (max 1 (ft2in (tierHeightFt p (t + 1))))
  else p.ductHeights.getD t 0

/-- Value stored into `ductWidths[t]` by `refreshTierLimits`. -/
def newDW (p : Params) (t : ℕ) : ℚ :=
  if p.ductEnabled.getD t false then
    min (p.ductWidths.getD t 0) (max 1 (ft2in p.depth - p.postSize))
  else p.ductWidths.getD t 0

/-- Value stored into `ductOffsets[t]` by `refreshTierLimits` (the
clamp range uses the freshly clamped width). -/
def newDO (p : Params) (t : ℕ) : ℚ :=
  if p.ductEnabled.getD t false then
    clampQ (p.ductOffsets.getD t 0) (-(sideLimit p (newDW p t))) (sideLimit p (newDW p t))
  else p.ductOffsets.getD t 0

/-- Value stored into `pipesPerTier[t]` by `refreshTierLimits`. -/
def newPP (p : Params) (t : ℕ) : List Pipe :=
  if p.pipeEnabled.getD t false then
    (p.pipesPerTier.getD t []).map
      (clampPipe p.depth p.postSize (tierHeightFt p (t + 1)))
  else p.pipesPerTier.getD t []

/-! ## Demo parameter aggregates used as concrete inputs -/

/-- The default parameter aggregate of the demo (`main.js` /
`part_000`). -/
def demoP : Params :=
  { corridorWidth := 10, corridorHeight := 15, ceilingHeight := 9
    bayCount := 4, bayWidth := 3, depth := 4, postSize := 2, beamSize := 2
    topClearance := 15, tierCount := 2, tierHeights := [2, 2]
    ductEnabled := [true, false], ductWidths := [18, 18], ductHeights := [16, 16]
    ductOffsets := [0, 0], pipeEnabled := [false, false]
    pipesPerTier := [[defaultPipe], [defaultPipe]] }

/-- A three-tier variant of the demo aggregate. -/
def demo3P : Params :=
  { demoP with
    tierCount := 3
    tierHeights := [2, 2, 2]
    ductEnabled := [false, false, false]
    ductWidths := [18, 18, 18]
    ductHeights := [16, 16, 16]
    ductOffsets := [0, 0, 0]
    pipeEnabled := [false, false, false]
    pipesPerTier := [[defaultPipe], [defaultPipe], [defaultPipe]] }

/-- The C2 clamp scenario: the demo aggregate with an out-of-range duct
side offset on tier 1. -/
def c2P : Params := { demoP with ductOffsets := [99, 0] }

/-- A four-tier aggregate with distinctive per-tier values, used for the
resize scenario. -/
def c5P : Params :=
  { demoP with
    tierCount := 4
    tierHeights := [2, 3, 4, 5]
    ductEnabled := [true, false, true, false]
    ductWidths := [18, 20, 22, 24]
    ductHeights := [16, 15, 14, 13]
    ductOffsets := [1, 2, 3, 4]
    pipeEnabled := [true, false, false, true]
    pipesPerTier := [[⟨4, 0, 4⟩], [⟨5, 1, 2⟩], [], [⟨6, 2, 3⟩]] }

/-- Pipe scenario: tier clear height 2 ft = 24 in, one enabled pipe of
diameter 4 in whose stored vertical offset is 22 in. -/
def c6P : Params :=
  { demoP with
    pipeEnabled := [true, false]
    pipesPerTier := [[⟨4, 0, 22⟩], [defaultPipe]] }

/-- Degenerate-duct scenario: the enabled duct on tier 1 has stored
width 0, which no clamp ever raises. -/
def c7P : Params := { demoP with ductWidths := [0, 18] }

/-! ## Basic list lemmas -/

theorem getD_set_self {α : Type} (a d : α) :
    ∀ (l : List α) (t : ℕ), (l.set t a).getD t d = if t < l.length then a else d := by
  intro l
  induction l with
  | nil => intro t; simp [List.getD]
  | cons x xs ih =>
      intro t
      cases t with
      | zero => simp [List.getD]
      | succ n => simpa [List.getD] using ih n

theorem getD_set_ne {α : Type} (a d : α) {s t : ℕ} (hst : s ≠ t) :
    ∀ (l : List α), (l.set s a).getD t d = l.getD t d := by
  intro l
  induction l generalizing s t with
  | nil => simp
  | cons x xs ih =>
      cases s with
      | zero =>
          cases t with
          | zero => exact absurd rfl hst
          | succ m => simp [List.getD]
      | succ n =>
          cases t with
          | zero => simp [List.getD]
          | succ m => simpa [List.getD] using ih (fun h => hst (by omega))

theorem set_getD_self {α : Type} (d : α) :
    ∀ (l : List α) (t : ℕ), l.set t (l.getD t d) = l := by
  intro l
  induction l with
  | nil => intro t; simp
  | cons x xs ih =>
      intro t
      cases t with
      | zero => simp [List.getD]
      | succ n => simpa [List.getD] using ih n

/-! ## Clamp algebra -/

theorem clampQ_idem (v lo hi : ℚ) : clampQ (clampQ v lo hi) lo hi = clampQ v lo hi := by
  unfold clampQ
  rcases le_total v hi with h1 | h1
  · rw [min_eq_right h1]
    rcases le_total v lo with h2 | h2
    · rw [max_eq_left h2, max_eq_left (min_le_right hi lo)]
    · rw [max_eq_right h2, min_eq_right h1, max_eq_right h2]
  · rw [min_eq_left h1]
    rcases le_total lo hi with h2 | h2
    · rw [max_eq_right h2, min_self, max_eq_right h2]
    · rw [max_eq_left h2, min_eq_left h2, max_eq_left h2]

theorem clampQ_mem {v lo hi : ℚ} (h : lo ≤ hi) :
    lo ≤ clampQ v lo hi ∧ clampQ v lo hi ≤ hi := by
  constructor
  · exact le_max_left _ _
  · exact max_le h (min_le_left _ _)

theorem abs_clampQ_le {v lim : ℚ} (h : 0 ≤ lim) : |clampQ v (-lim) lim| ≤ lim := by
  have := @clampQ_mem v (-lim) lim (by linarith)
  exact abs_le.mpr ⟨this.1, this.2⟩

/-! ## Closed forms for the level walk and `bottomBeamCenterY` -/

theorem levelWalkList_length (beamM : ℚ) :
    ∀ (l : List ℚ) (c : ℚ) (i : ℕ), (levelWalkList beamM l c i).length = l.length := by
  intro l
  induction l with
  | nil => intro c i; rfl
  | cons h rest ih => intro c i; simp [levelWalkList, ih]

theorem levelWalkList_getD (beamM : ℚ) :
    ∀ (l : List ℚ) (c : ℚ) (i k : ℕ), k < l.length →
      (levelWalkList beamM l c i).getD k 0 =
        c - (l.take (k + 1)).sum - (i + k + 1) * beamM - beamM / 2 := by
  intro l
  induction l with
  | nil => intro c i k hk; simp at hk
  | cons h rest ih =>
      intro c i k hk
      cases k with
      | zero => simp [levelWalkList, List.getD]; ring
      | succ m =>
          have hm : m < rest.length := by simpa using hk
          have := ih (c - h) (i + 1) m hm
          simp only [levelWalkList, List.getD_cons_succ, this, List.take_succ_cons,
            List.sum_cons]
          push_cast
          ring

theorem bbcLoop_closed (beamM : ℚ) (hts : List ℚ) :
    ∀ (n : ℕ) (y : ℚ) (i : ℕ),
      bbcLoop beamM hts y i n =
        y - n * beamM - (((hts.map ft2m).drop i).take n).sum := by
  intro n
  induction n with
  | zero => intro y i; simp [bbcLoop]
  | succ m ih =>
      intro y i
      rw [bbcLoop, ih]
      rcases lt_or_ge i hts.length with hi | hi
      · have hdrop : (hts.map ft2m).drop i =
            ft2m (hts.getD i 0) :: (hts.map ft2m).drop (i + 1) := by
          have hi' : i < (hts.map ft2m).length := by simpa using hi
          rw [List.drop_eq_getElem_cons hi']
          congr 1
          simp [List.getD_eq_getElem?_getD, List.getElem?_eq_getElem hi]
        rw [hdrop]
        simp only [List.take_succ_cons, List.sum_cons]
        push_cast
        ring
      · have hlen1 : (hts.map ft2m).length ≤ i := by simpa using hi
        have hlen2 : (hts.map ft2m).length ≤ i + 1 := Nat.le_succ_of_le hlen1
        have hd1 : (hts.map ft2m).drop i = [] := List.drop_eq_nil_of_le hlen1
        have hd2 : (hts.map ft2m).drop (i + 1) = [] := List.drop_eq_nil_of_le hlen2
        have hgd : hts.getD i 0 = 0 := by
          have : hts[i]? = none := List.getElem?_eq_none hi
          simp [List.getD_eq_getElem?_getD, this]
        rw [hd1, hd2, hgd]
        simp [ft2m]
        ring

theorem bottomBeamCenterY_closed (p : Params) (t : ℕ) :
    bottomBeamCenterY p t =
      ft2m p.topClearance - in2m p.beamSize / 2 - t * in2m p.beamSize -
        ((p.tierHeights.map ft2m).take t).sum := by
  rw [bottomBeamCenterY, bbcLoop_closed]
  simp

/-! ## Strict decrease of the level walk -/

theorem levelWalkList_lt_bound (beamM : ℚ) (hbeam : 0 < beamM) :
    ∀ (l : List ℚ) (c : ℚ) (i : ℕ), (∀ x ∈ l, 0 ≤ x) →
      ∀ x ∈ levelWalkList beamM l c i, x < c - i * beamM - beamM / 2 := by
  intro l
  induction l with
  | nil => intro c i _ x hx; simp [levelWalkList] at hx
  | cons h rest ih =>
      intro c i hnn x hx
      have hh : 0 ≤ h := hnn h (List.mem_cons_self _ _)
      rcases List.mem_cons.mp hx with hx | hx
      · subst hx
        linarith
      · have := ih (c - h) (i + 1) (fun y hy => hnn y (List.mem_cons_of_mem _ hy)) x hx
        push_cast at this ⊢
        linarith

theorem levelWalkList_pairwise (beamM : ℚ) (hbeam : 0 < beamM) :
    ∀ (l : List ℚ) (c : ℚ) (i : ℕ), (∀ x ∈ l, 0 ≤ x) →
      List.Pairwise (fun a b => b < a) (levelWalkList beamM l c i) := by
  intro l
  induction l with
  | nil => intro c i _; simp [levelWalkList]
  | cons h rest ih =>
      intro c i hnn
      have hh : 0 ≤ h := hnn h (List.mem_cons_self _ _)
      rw [levelWalkList]
      refine List.Pairwise.cons ?_ (ih (c - h) (i + 1)
        (fun y hy => hnn y (List.mem_cons_of_mem _ hy)))
      intro x hx
      have := levelWalkList_lt_bound beamM hbeam rest (c - h) (i + 1)
        (fun y hy => hnn y (List.mem_cons_of_mem _ hy)) x hx
      push_cast at this ⊢
      linarith

theorem rackLevels_pairwise (p : Params) (hb : 0 < p.beamSize)
    (hh : ∀ x ∈ p.tierHeights, 0 ≤ x) :
    List.Pairwise (fun a b => b < a) (rackLevels p) := by
  have hbeam : 0 < in2m p.beamSize := by
    unfold in2m IN2M; positivity
  have hnn : ∀ x ∈ (p.tierHeights.map ft2m).take p.tierCount, 0 ≤ x := by
    intro x hx
    obtain ⟨y, hy, rfl⟩ := List.mem_map.mp (List.mem_of_mem_take hx)
    have := hh y hy
    unfold ft2m FT2M; positivity
  rw [rackLevels]
  refine List.Pairwise.cons ?_ (levelWalkList_pairwise _ hbeam _ _ _ hnn)
  intro x hx
  have := levelWalkList_lt_bound _ hbeam _ _ _ hnn x hx
  push_cast at this
  linarith

/-! ## C1: the level walk refines `bottomBeamCenterY` -/

/-- C1: for `1 ≤ t ≤ tierCount`, the `t`-th elevation the level walk of
`buildRack` adds equals `bottomBeamCenterY(p, t)`; both equal
`ft2m(topClearance) - in2m(beamSize)/2 - t*in2m(beamSize) - Σ (first t
tier heights in metres)`, and the walk's roof entry equals
`ft2m(topClearance) - in2m(beamSize)/2`. -/
theorem C1_levelWalk_eq_bottomBeamCenterY (p : Params) (t : ℕ)
    (h1 : 1 ≤ t) (h2 : t ≤ p.tierCount) (hlen : p.tierHeights.length = p.tierCount) :
    (rackLevels p).getD t 0 = bottomBeamCenterY p t ∧
    bottomBeamCenterY p t =
      ft2m p.topClearance - in2m p.beamSize / 2 - t * in2m p.beamSize -
        ((p.tierHeights.map ft2m).take t).sum ∧
    (rackLevels p).getD 0 0 = ft2m p.topClearance - in2m p.beamSize / 2 := by
  obtain ⟨k, rfl⟩ : ∃ k, t = k + 1 := ⟨t - 1, by omega⟩
  have hk : k < ((p.tierHeights.map ft2m).take p.tierCount).length := by
    simp [hlen]
    omega
  refine ⟨?_, bottomBeamCenterY_closed p (k + 1), rfl⟩
  rw [rackLevels, List.getD_cons_succ, levelWalkList_getD _ _ _ _ _ hk,
    bottomBeamCenterY_closed, List.take_take]
  have hmin : min (k + 1) p.tierCount = k + 1 := by omega
  rw [hmin]
  push_cast
  ring

/-- Witness for C1 at the demo aggregate, tier `t = 1`. -/
theorem C1_witness :
    (1 ≤ demoP.tierCount ∧ demoP.tierHeights.length = demoP.tierCount) ∧
    (rackLevels demoP).getD 1 0 = bottomBeamCenterY demoP 1 ∧
    bottomBeamCenterY demoP 1 =
      ft2m demoP.topClearance - in2m demoP.beamSize / 2 - 1 * in2m demoP.beamSize -
        ((demoP.tierHeights.map ft2m).take 1).sum :=
  ⟨⟨by decide, by decide⟩,
    (C1_levelWalk_eq_bottomBeamCenterY demoP 1 (le_refl 1) (by decide) (by decide)).1,
    by
      have h := (C1_levelWalk_eq_bottomBeamCenterY demoP 1 (le_refl 1)
        (by decide) (by decide)).2.1
      simpa using h⟩

/-! ## C10: dedup never merges levels -/

/-- C10: with `beamSize > 0` and nonnegative tier heights, consecutive
levels of the walk differ by exactly `beamSize + height(i)` (in metres),
which is positive, so the walk is pairwise distinct and the
deduplicating set holds exactly `tierCount + 1` levels. -/
theorem C10_levels_distinct (p : Params) (hb : 0 < p.beamSize)
    (hh : ∀ x ∈ p.tierHeights, 0 ≤ x) (hlen : p.tierHeights.length = p.tierCount) :
    (∀ k, k < p.tierCount →
      (rackLevels p).getD k 0 - (rackLevels p).getD (k + 1) 0 =
        in2m p.beamSize + ft2m (p.tierHeights.getD k 0) ∧
      0 < (rackLevels p).getD k 0 - (rackLevels p).getD (k + 1) 0) ∧
    (rackLevels p).Nodup ∧ (rackLevels p).toFinset.card = p.tierCount + 1 := by
  have hbeam : 0 < in2m p.beamSize := by
    unfold in2m IN2M; positivity
  have hLlen : ((p.tierHeights.map ft2m).take p.tierCount).length = p.tierCount := by
    simp [hlen]
  have hnodup : (rackLevels p).Nodup :=
    (rackLevels_pairwise p hb hh).imp (fun hlt => (ne_of_gt hlt))
  refine ⟨?_, hnodup, ?_⟩
  · intro k hk
    have hsum : (((p.tierHeights.map ft2m).take p.tierCount).take (k + 1)).sum =
        (((p.tierHeights.map ft2m).take p.tierCount).take k).sum +
          ft2m (p.tierHeights.getD k 0) := by
      have hk3 : k < ((p.tierHeights.map ft2m).take p.tierCount).length := by omega
      have hk1 : k < p.tierHeights.length := by omega
      rw [List.take_succ, List.sum_append, List.getElem?_eq_getElem hk3]
      simp only [Option.toList_some, List.sum_cons, List.sum_nil, add_zero]
      congr 1
      rw [List.getElem_take, List.getElem_map, List.getD_eq_getElem _ _ hk1]
    have hnn : 0 ≤ ft2m (p.tierHeights.getD k 0) := by
      have : 0 ≤ p.tierHeights.getD k 0 := by
        have hk1 : k < p.tierHeights.length := by omega
        rw [List.getD_eq_getElem _ _ hk1]
        exact hh _ (List.getElem_mem hk1)
      unfold ft2m FT2M; positivity
    have hdiff : (rackLevels p).getD k 0 - (rackLevels p).getD (k + 1) 0 =
        in2m p.beamSize + ft2m (p.tierHeights.getD k 0) := by
      cases k with
      | zero =>
          rw [rackLevels, List.getD_cons_zero, List.getD_cons_succ,
            levelWalkList_getD _ _ _ _ _ (by omega)]
          rw [hsum]
          simp
          ring
      | succ m =>
          rw [rackLevels, List.getD_cons_succ, List.getD_cons_succ,
            levelWalkList_getD _ _ _ _ _ (by omega),
            levelWalkList_getD _ _ _ _ _ (by omega), hsum]
          push_cast
          ring
    exact ⟨hdiff, by rw [hdiff]; linarith⟩
  · rw [List.toFinset_card_of_nodup hnodup, rackLevels]
    simp [levelWalkList_length, hlen]

/-- Witness for C10 at a three-tier aggregate: four pairwise-distinct
levels. -/
theorem C10_witness :
    (rackLevels demo3P).Nodup ∧ (rackLevels demo3P).toFinset.card = 3 + 1 :=
  ⟨(C10_levels_distinct demo3P (by decide) (by decide) (by decide)).2.1,
    (C10_levels_distinct demo3P (by decide) (by decide) (by decide)).2.2⟩

/-! ## Normal form of `refreshTierLimits` -/

theorem set_getElemD_self {α : Type} (d : α) :
    ∀ (l : List α) (t : ℕ), l.set t (l[t]?.getD d) = l := by
  intro l t
  have := set_getD_self d l t
  rwa [List.getD_eq_getElem?_getD] at this

theorem refreshTierLimits_eq (p : Params) (t : ℕ) :
    refreshTierLimits p t =
      { p with
        ductHeights := p.ductHeights.set t (newDH p t)
        ductWidths := p.ductWidths.set t (newDW p t)
        ductOffsets := p.ductOffsets.set t (newDO p t)
        pipesPerTier := p.pipesPerTier.set t (newPP p t) } := by
  by_cases hd : p.ductEnabled[t]?.getD false = true <;>
    by_cases hp2 : p.pipeEnabled[t]?.getD false = true <;>
      simp [refreshTierLimits, newDH, newDW, newDO, newPP, List.getD_eq_getElem?_getD,
        hd, hp2, set_getElemD_self, tierHeightFt, sideLimit]

theorem refresh_ductHeights_getD (p : Params) (t : ℕ) (h : t < p.ductHeights.length) :
    (refreshTierLimits p t).ductHeights.getD t 0 = newDH p t := by
  rw [refreshTierLimits_eq]
  rw [getD_set_self (newDH p t) 0 p.ductHeights t]
  simp [h]

theorem refresh_ductWidths_getD (p : Params) (t : ℕ) (h : t < p.ductWidths.length) :
    (refreshTierLimits p t).ductWidths.getD t 0 = newDW p t := by
  rw [refreshTierLimits_eq]
  rw [getD_set_self (newDW p t) 0 p.ductWidths t]
  simp [h]

theorem refresh_ductOffsets_getD (p : Params) (t : ℕ) (h : t < p.ductOffsets.length) :
    (refreshTierLimits p t).ductOffsets.getD t 0 = newDO p t := by
  rw [refreshTierLimits_eq]
  rw [getD_set_self (newDO p t) 0 p.ductOffsets t]
  simp [h]

theorem refresh_pipesPerTier_getD (p : Params) (t : ℕ) (h : t < p.pipesPerTier.length) :
    (refreshTierLimits p t).pipesPerTier.getD t [] = newPP p t := by
  rw [refreshTierLimits_eq]
  rw [getD_set_self (newPP p t) ([] : List Pipe) p.pipesPerTier t]
  simp [h]

/-! ## C2: duct containment after the clamp pass -/

/-- C2: after `refreshTierLimits` runs on a tier whose duct is enabled
(and whose clear height and depth clearance are at least one inch, as
the GUI ranges guarantee), the stored duct height is at most the tier's
clear height in inches, the width at most `12*depth - postSize`, and the
offset magnitude at most `12*depth/2 - postSize/2 - width/2`. -/
theorem C2_duct_clamps (p : Params) (t : ℕ)
    (hen : p.ductEnabled.getD t false = true)
    (hlh : t < p.ductHeights.length) (hlw : t < p.ductWidths.length)
    (hlo : t < p.ductOffsets.length)
    (hclear : 1 ≤ ft2in (p.tierHeights.getD t 0))
    (hdepth : 1 ≤ ft2in p.depth - p.postSize) :
    (refreshTierLimits p t).ductHeights.getD t 0 ≤ ft2in (p.tierHeights.getD t 0) ∧
    (refreshTierLimits p t).ductWidths.getD t 0 ≤ ft2in p.depth - p.postSize ∧
    |(refreshTierLimits p t).ductOffsets.getD t 0| ≤
      ft2in p.depth / 2 - p.postSize / 2 -
        (refreshTierLimits p t).ductWidths.getD t 0 / 2 := by
  rw [refresh_ductHeights_getD p t hlh, refresh_ductWidths_getD p t hlw,
    refresh_ductOffsets_getD p t hlo]
  have htier : tierHeightFt p (t + 1) = p.tierHeights.getD t 0 := by
    simp [tierHeightFt]
  have hW : newDW p t ≤ ft2in p.depth - p.postSize := by
    rw [newDW, if_pos hen, max_eq_right hdepth]
    exact min_le_right _ _
  refine ⟨?_, hW, ?_⟩
  · rw [newDH, if_pos hen, htier, max_eq_right hclear]
    exact min_le_right _ _
  · rw [newDO, if_pos hen]
    have hlim : 0 ≤ sideLimit p (newDW p t) := by
      rw [sideLimit]
      linarith
    have habs := @abs_clampQ_le (p.ductOffsets.getD t 0) (sideLimit p (newDW p t)) hlim
    have hsl : sideLimit p (newDW p t) =
        ft2in p.depth / 2 - p.postSize / 2 - newDW p t / 2 := rfl
    rw [← hsl]
    exact habs

/-- Witness for C2 at the scenario `depth = 4 ft, postSize = 2 in,
width = 18 in`: the out-of-range stored offset 99 clamps into
`[-14, 14]`, landing at 14. -/
theorem C2_witness :
    c2P.ductEnabled.getD 0 false = true ∧
    |(refreshTierLimits c2P 0).ductOffsets.getD 0 0| ≤
      ft2in c2P.depth / 2 - c2P.postSize / 2 -
        (refreshTierLimits c2P 0).ductWidths.getD 0 0 / 2 ∧
    (refreshTierLimits c2P 0).ductOffsets.getD 0 0 = 14 := by
  refine ⟨by decide, ?_, ?_⟩
  · exact (C2_duct_clamps c2P 0 (by decide) (by decide) (by decide) (by decide)
      (by norm_num [c2P, demoP, ft2in])
      (by norm_num [c2P, demoP, ft2in])).2.2
  · norm_num [refreshTierLimits, c2P, demoP, sideLimit, tierHeightFt, clampQ, ft2in]

/-! ## C3: emitted pipes stay inside the tier envelope -/

/-- C3: for any stored vertical offset whatsoever, as long as the pipe
diameter fits the tier's clear height, the clamped centre `pipeY` keeps
the pipe body inside the tier: its effective offset above the tier
bottom is at least the radius and at most clear height minus radius. -/
theorem C3_pipe_inside_tier (p : Params) (t : ℕ) (pj : Pipe)
    (hd : in2m pj.diam ≤ ft2m (p.tierHeights.getD (t - 1) 0)) :
    in2m pj.diam / 2 ≤ pipeY p t pj - tierBottomY p t ∧
    pipeY p t pj - tierBottomY p t + in2m pj.diam / 2 ≤
      ft2m (p.tierHeights.getD (t - 1) 0) := by
  have hlo : tierBottomY p t + in2m pj.diam / 2 ≤ pipeY p t pj := by
    unfold pipeY
    exact le_max_left _ _
  have hhi : pipeY p t pj ≤ tierTopY p t - in2m pj.diam / 2 := by
    unfold pipeY
    refine (clampQ_mem ?_).2
    unfold tierTopY
    linarith
  unfold tierTopY at hhi
  constructor <;> linarith

/-- Witness for C3 at the demo aggregate, tier 1, a 4-inch pipe with a
wildly out-of-range stored vertical offset of 1000 in. -/
theorem C3_witness :
    in2m (4 : ℚ) ≤ ft2m (demoP.tierHeights.getD 0 0) ∧
    in2m (4 : ℚ) / 2 ≤ pipeY demoP 1 ⟨4, 0, 1000⟩ - tierBottomY demoP 1 ∧
    pipeY demoP 1 ⟨4, 0, 1000⟩ - tierBottomY demoP 1 + in2m (4 : ℚ) / 2 ≤
      ft2m (demoP.tierHeights.getD 0 0) := by
  have hfit : in2m (4 : ℚ) ≤ ft2m (demoP.tierHeights.getD 0 0) := by
    norm_num [in2m, ft2m, IN2M, FT2M, demoP]
  exact ⟨hfit, (C3_pipe_inside_tier demoP 1 ⟨4, 0, 1000⟩ hfit).1,
    (C3_pipe_inside_tier demoP 1 ⟨4, 0, 1000⟩ hfit).2⟩

/-! ## The `grow` resize primitive -/

theorem grow_length {α : Type} (arr : List α) (n : ℕ) (mk : α) :
    (grow arr n mk).length = n := by
  unfold grow
  rw [List.length_take, List.length_append, List.length_replicate]
  omega

theorem grow_getD_preserve {α : Type} (arr : List α) (n : ℕ) (mk d : α) (i : ℕ)
    (h1 : i < arr.length) (h2 : i < n) :
    (grow arr n mk).getD i d = arr.getD i d := by
  unfold grow
  rw [List.getD_eq_getElem?_getD, List.getD_eq_getElem?_getD,
    List.getElem?_take_of_lt h2, List.getElem?_append_left h1]

theorem grow_getD_default {α : Type} (arr : List α) (n : ℕ) (mk d : α) (i : ℕ)
    (h1 : arr.length ≤ i) (h2 : i < n) :
    (grow arr n mk).getD i d = mk := by
  unfold grow
  rw [List.getD_eq_getElem?_getD, List.getElem?_take_of_lt h2,
    List.getElem?_append_right h1, List.getElem?_replicate_of_lt (by omega)]
  rfl

/-! ## C5: the resize law of `syncArrays` -/

/-- C5: after setting `tierCount := k` and running `syncArrays`, every
per-tier array has exactly `k` entries, the first `min(old, k)` entries
are unchanged, and every appended entry carries its default (height 2,
duct disabled/18/16/0, pipes disabled, one default pipe). -/
theorem C5_resize_law (p : Params) (k : ℕ) :
    ((syncArrays { p with tierCount := k }).tierHeights.length = k ∧
     (syncArrays { p with tierCount := k }).ductEnabled.length = k ∧
     (syncArrays { p with tierCount := k }).ductWidths.length = k ∧
     (syncArrays { p with tierCount := k }).ductHeights.length = k ∧
     (syncArrays { p with tierCount := k }).ductOffsets.length = k ∧
     (syncArrays { p with tierCount := k }).pipeEnabled.length = k ∧
     (syncArrays { p with tierCount := k }).pipesPerTier.length = k) ∧
    (∀ i, i < k →
      (i < p.tierHeights.length →
        (syncArrays { p with tierCount := k }).tierHeights.getD i 0 =
          p.tierHeights.getD i 0) ∧
      (i < p.ductEnabled.length →
        (syncArrays { p with tierCount := k }).ductEnabled.getD i false =
          p.ductEnabled.getD i false) ∧
      (i < p.ductWidths.length →
        (syncArrays { p with tierCount := k }).ductWidths.getD i 0 =
          p.ductWidths.getD i 0) ∧
      (i < p.ductHeights.length →
        (syncArrays { p with tierCount := k }).ductHeights.getD i 0 =
          p.ductHeights.getD i 0) ∧
      (i < p.ductOffsets.length →
        (syncArrays { p with tierCount := k }).ductOffsets.getD i 0 =
          p.ductOffsets.getD i 0) ∧
      (i < p.pipeEnabled.length →
        (syncArrays { p with tierCount := k }).pipeEnabled.getD i false =
          p.pipeEnabled.getD i false) ∧
      (i < p.pipesPerTier.length →
        (syncArrays { p with tierCount := k }).pipesPerTier.getD i [] =
          p.pipesPerTier.getD i [])) ∧
    (∀ i, i < k →
      (p.tierHeights.length ≤ i →
        (syncArrays { p with tierCount := k }).tierHeights.getD i 0 = 2) ∧
      (p.ductEnabled.length ≤ i →
        (syncArrays { p with tierCount := k }).ductEnabled.getD i false = false) ∧
      (p.ductWidths.length ≤ i →
        (syncArrays { p with tierCount := k }).ductWidths.getD i 0 = 18) ∧
      (p.ductHeights.length ≤ i →
        (syncArrays { p with tierCount := k }).ductHeights.getD i 0 = 16) ∧
      (p.ductOffsets.length ≤ i →
        (syncArrays { p with tierCount := k }).ductOffsets.getD i 0 = 0) ∧
      (p.pipeEnabled.length ≤ i →
        (syncArrays { p with tierCount := k }).pipeEnabled.getD i false = false) ∧
      (p.pipesPerTier.length ≤ i →
        (syncArrays { p with tierCount := k }).pipesPerTier.getD i [] =
          [defaultPipe])) := by
  refine ⟨⟨grow_length _ _ _, grow_length _ _ _, grow_length _ _ _, grow_length _ _ _,
    grow_length _ _ _, grow_length _ _ _, grow_length _ _ _⟩, ?_, ?_⟩
  · intro i hik
    exact ⟨fun h => grow_getD_preserve _ _ _ _ _ h hik,
      fun h => grow_getD_preserve _ _ _ _ _ h hik,
      fun h => grow_getD_preserve _ _ _ _ _ h hik,
      fun h => grow_getD_preserve _ _ _ _ _ h hik,
      fun h => grow_getD_preserve _ _ _ _ _ h hik,
      fun h => grow_getD_preserve _ _ _ _ _ h hik,
      fun h => grow_getD_preserve _ _ _ _ _ h hik⟩
  · intro i hik
    exact ⟨fun h => grow_getD_default _ _ _ _ _ h hik,
      fun h => grow_getD_default _ _ _ _ _ h hik,
      fun h => grow_getD_default _ _ _ _ _ h hik,
      fun h => grow_getD_default _ _ _ _ _ h hik,
      fun h => grow_getD_default _ _ _ _ _ h hik,
      fun h => grow_getD_default _ _ _ _ _ h hik,
      fun h => grow_getD_default _ _ _ _ _ h hik⟩

/-- Witness for C5: shrinking the four-tier aggregate to two tiers keeps
exactly two entries per array and leaves tiers 1-2's stored values
untouched. -/
theorem C5_witness :
    (syncArrays { c5P with tierCount := 2 }).tierHeights.length = 2 ∧
    (syncArrays { c5P with tierCount := 2 }).pipesPerTier.length = 2 ∧
    (syncArrays { c5P with tierCount := 2 }).tierHeights.getD 1 0 =
      c5P.tierHeights.getD 1 0 ∧
    (syncArrays { c5P with tierCount := 2 }).ductWidths.getD 1 0 =
      c5P.ductWidths.getD 1 0 ∧
    (syncArrays { c5P with tierCount := 2 }).pipesPerTier.getD 0 [] =
      c5P.pipesPerTier.getD 0 [] := by
  refine ⟨(C5_resize_law c5P 2).1.1, (C5_resize_law c5P 2).1.2.2.2.2.2.2, ?_, ?_, ?_⟩
  · exact ((C5_resize_law c5P 2).2.1 1 (by decide)).1 (by decide)
  · exact ((C5_resize_law c5P 2).2.1 1 (by decide)).2.2.1 (by decide)
  · exact ((C5_resize_law c5P 2).2.1 0 (by decide)).2.2.2.2.2.2 (by decide)

/-! ## C9: editing a tier's pipe count -/

/-- C9: changing a tier's pipe count to `n` keeps every surviving entry
(index below both the old length and `n`) bit-identical and fills only
newly created entries with the default `{diam 4, side 0, vert 4}`. -/
theorem C9_pipe_count_frame (arr : List Pipe) (n : ℕ) :
    (setPipeCount arr n).length = n ∧
    (∀ i, i < arr.length → i < n →
      (setPipeCount arr n).getD i defaultPipe = arr.getD i defaultPipe) ∧
    (∀ i, arr.length ≤ i → i < n →
      (setPipeCount arr n).getD i defaultPipe = defaultPipe) := by
  have he : setPipeCount arr n = grow arr n defaultPipe := rfl
  rw [he]
  exact ⟨grow_length _ _ _,
    fun i h1 h2 => grow_getD_preserve _ _ _ _ _ h1 h2,
    fun i h1 h2 => grow_getD_default _ _ _ _ _ h1 h2⟩

/-- Witness for C9: growing a two-pipe list to three pipes preserves
both existing pipes and appends one default pipe. -/
theorem C9_witness :
    (setPipeCount [⟨4, 0, 4⟩, ⟨5, 1, 2⟩] 3).length = 3 ∧
    (setPipeCount [⟨4, 0, 4⟩, ⟨5, 1, 2⟩] 3).getD 1 defaultPipe =
      ([⟨4, 0, 4⟩, ⟨5, 1, 2⟩] : List Pipe).getD 1 defaultPipe ∧
    (setPipeCount [⟨4, 0, 4⟩, ⟨5, 1, 2⟩] 3).getD 2 defaultPipe = defaultPipe := by
  refine ⟨(C9_pipe_count_frame [⟨4, 0, 4⟩, ⟨5, 1, 2⟩] 3).1, ?_, ?_⟩
  · exact (C9_pipe_count_frame [⟨4, 0, 4⟩, ⟨5, 1, 2⟩] 3).2.1 1 (by decide) (by decide)
  · exact (C9_pipe_count_frame [⟨4, 0, 4⟩, ⟨5, 1, 2⟩] 3).2.2 2 (by decide) (by decide)

/-! ## Field equations of `refreshTierLimits` -/

theorem refresh_corridorWidth (p : Params) (t : ℕ) :
    (refreshTierLimits p t).corridorWidth = p.corridorWidth := by
  rw [refreshTierLimits_eq]

theorem refresh_corridorHeight (p : Params) (t : ℕ) :
    (refreshTierLimits p t).corridorHeight = p.corridorHeight := by
  rw [refreshTierLimits_eq]

theorem refresh_ceilingHeight (p : Params) (t : ℕ) :
    (refreshTierLimits p t).ceilingHeight = p.ceilingHeight := by
  rw [refreshTierLimits_eq]

theorem refresh_bayCount (p : Params) (t : ℕ) :
    (refreshTierLimits p t).bayCount = p.bayCount := by
  rw [refreshTierLimits_eq]

theorem refresh_bayWidth (p : Params) (t : ℕ) :
    (refreshTierLimits p t).bayWidth = p.bayWidth := by
  rw [refreshTierLimits_eq]

theorem refresh_depth (p : Params) (t : ℕ) :
    (refreshTierLimits p t).depth = p.depth := by
  rw [refreshTierLimits_eq]

theorem refresh_postSize (p : Params) (t : ℕ) :
    (refreshTierLimits p t).postSize = p.postSize := by
  rw [refreshTierLimits_eq]

theorem refresh_beamSize (p : Params) (t : ℕ) :
    (refreshTierLimits p t).beamSize = p.beamSize := by
  rw [refreshTierLimits_eq]

theorem refresh_topClearance (p : Params) (t : ℕ) :
    (refreshTierLimits p t).topClearance = p.topClearance := by
  rw [refreshTierLimits_eq]

theorem refresh_tierCount (p : Params) (t : ℕ) :
    (refreshTierLimits p t).tierCount = p.tierCount := by
  rw [refreshTierLimits_eq]

theorem refresh_tierHeights (p : Params) (t : ℕ) :
    (refreshTierLimits p t).tierHeights = p.tierHeights := by
  rw [refreshTierLimits_eq]

theorem refresh_ductEnabled (p : Params) (t : ℕ) :
    (refreshTierLimits p t).ductEnabled = p.ductEnabled := by
  rw [refreshTierLimits_eq]

theorem refresh_pipeEnabled (p : Params) (t : ℕ) :
    (refreshTierLimits p t).pipeEnabled = p.pipeEnabled := by
  rw [refreshTierLimits_eq]

theorem refresh_ductHeights (p : Params) (t : ℕ) :
    (refreshTierLimits p t).ductHeights = p.ductHeights.set t (newDH p t) := by
  rw [refreshTierLimits_eq]

theorem refresh_ductWidths (p : Params) (t : ℕ) :
    (refreshTierLimits p t).ductWidths = p.ductWidths.set t (newDW p t) := by
  rw [refreshTierLimits_eq]

theorem refresh_ductOffsets (p : Params) (t : ℕ) :
    (refreshTierLimits p t).ductOffsets = p.ductOffsets.set t (newDO p t) := by
  rw [refreshTierLimits_eq]

theorem refresh_pipesPerTier (p : Params) (t : ℕ) :
    (refreshTierLimits p t).pipesPerTier = p.pipesPerTier.set t (newPP p t) := by
  rw [refreshTierLimits_eq]

/-! ## Stability of the stored values under a second pass -/

theorem clampPipe_idem (d ps h : ℚ) (pj : Pipe) :
    clampPipe d ps h (clampPipe d ps h pj) = clampPipe d ps h pj := by
  unfold clampPipe
  ext <;> simp [clampQ_idem, min_assoc]

theorem tierHeightFt_refresh (p : Params) (t idx : ℕ) :
    tierHeightFt (refreshTierLimits p t) idx = tierHeightFt p idx := by
  unfold tierHeightFt
  rw [refresh_tierHeights]

theorem sideLimit_refresh (p : Params) (t : ℕ) (w : ℚ) :
    sideLimit (refreshTierLimits p t) w = sideLimit p w := by
  unfold sideLimit
  rw [refresh_depth, refresh_postSize]

theorem newDH_pos (p : Params) (t : ℕ) (hen : p.ductEnabled.getD t false = true) :
    newDH p t = min (p.ductHeights.getD t 0)
      (max 1 (ft2in (tierHeightFt p (t + 1)))) := by
  unfold newDH
  rw [if_pos hen]

theorem newDH_neg (p : Params) (t : ℕ) (hen : ¬p.ductEnabled.getD t false = true) :
    newDH p t = p.ductHeights.getD t 0 := by
  unfold newDH
  rw [if_neg hen]

theorem newDW_pos (p : Params) (t : ℕ) (hen : p.ductEnabled.getD t false = true) :
    newDW p t = min (p.ductWidths.getD t 0)
      (max 1 (ft2in p.depth - p.postSize)) := by
  unfold newDW
  rw [if_pos hen]

theorem newDW_neg (p : Params) (t : ℕ) (hen : ¬p.ductEnabled.getD t false = true) :
    newDW p t = p.ductWidths.getD t 0 := by
  unfold newDW
  rw [if_neg hen]

theorem newDO_pos (p : Params) (t : ℕ) (hen : p.ductEnabled.getD t false = true) :
    newDO p t = clampQ (p.ductOffsets.getD t 0) (-(sideLimit p (newDW p t)))
      (sideLimit p (newDW p t)) := by
  unfold newDO
  rw [if_pos hen]

theorem newDO_neg (p : Params) (t : ℕ) (hen : ¬p.ductEnabled.getD t false = true) :
    newDO p t = p.ductOffsets.getD t 0 := by
  unfold newDO
  rw [if_neg hen]

theorem newPP_pos (p : Params) (t : ℕ) (hen : p.pipeEnabled.getD t false = true) :
    newPP p t = (p.pipesPerTier.getD t []).map
      (clampPipe p.depth p.postSize (tierHeightFt p (t + 1))) := by
  unfold newPP
  rw [if_pos hen]

theorem newPP_neg (p : Params) (t : ℕ) (hen : ¬p.pipeEnabled.getD t false = true) :
    newPP p t = p.pipesPerTier.getD t [] := by
  unfold newPP
  rw [if_neg hen]

theorem newDH_step_self (p : Params) (t : ℕ) :
    newDH (refreshTierLimits p t) t = newDH p t := by
  by_cases hen : p.ductEnabled.getD t false = true
  · have hen2 : (refreshTierLimits p t).ductEnabled.getD t false = true := by
      rw [refresh_ductEnabled]
      exact hen
    rw [newDH_pos _ _ hen2, newDH_pos _ _ hen, tierHeightFt_refresh,
      refresh_ductHeights, getD_set_self]
    by_cases hlt : t < p.ductHeights.length
    · rw [if_pos hlt, newDH_pos _ _ hen, min_assoc, min_self]
    · rw [if_neg hlt, List.getD_eq_default _ _ (by omega)]
  · have hen2 : ¬(refreshTierLimits p t).ductEnabled.getD t false = true := by
      rw [refresh_ductEnabled]
      exact hen
    rw [newDH_neg _ _ hen2, newDH_neg _ _ hen, refresh_ductHeights, getD_set_self]
    by_cases hlt : t < p.ductHeights.length
    · rw [if_pos hlt, newDH_neg _ _ hen]
    · rw [if_neg hlt, List.getD_eq_default _ _ (by omega)]

theorem newDW_step_self (p : Params) (t : ℕ) :
    newDW (refreshTierLimits p t) t = newDW p t := by
  by_cases hen : p.ductEnabled.getD t false = true
  · have hen2 : (refreshTierLimits p t).ductEnabled.getD t false = true := by
      rw [refresh_ductEnabled]
      exact hen
    rw [newDW_pos _ _ hen2, newDW_pos _ _ hen, refresh_depth, refresh_postSize,
      refresh_ductWidths, getD_set_self]
    by_cases hlt : t < p.ductWidths.length
    · rw [if_pos hlt, newDW_pos _ _ hen, min_assoc, min_self]
    · rw [if_neg hlt, List.getD_eq_default _ _ (by omega)]
  · have hen2 : ¬(refreshTierLimits p t).ductEnabled.getD t false = true := by
      rw [refresh_ductEnabled]
      exact hen
    rw [newDW_neg _ _ hen2, newDW_neg _ _ hen, refresh_ductWidths, getD_set_self]
    by_cases hlt : t < p.ductWidths.length
    · rw [if_pos hlt, newDW_neg _ _ hen]
    · rw [if_neg hlt, List.getD_eq_default _ _ (by omega)]

theorem newDO_step_self (p : Params) (t : ℕ) :
    newDO (refreshTierLimits p t) t = newDO p t := by
  by_cases hen : p.ductEnabled.getD t false = true
  · have hen2 : (refreshTierLimits p t).ductEnabled.getD t false = true := by
      rw [refresh_ductEnabled]
      exact hen
    rw [newDO_pos _ _ hen2, newDO_pos _ _ hen, sideLimit_refresh, newDW_step_self,
      refresh_ductOffsets, getD_set_self]
    by_cases hlt : t < p.ductOffsets.length
    · rw [if_pos hlt, newDO_pos _ _ hen, clampQ_idem]
    · rw [if_neg hlt, List.getD_eq_default _ _ (by omega)]
  · have hen2 : ¬(refreshTierLimits p t).ductEnabled.getD t false = true := by
      rw [refresh_ductEnabled]
      exact hen
    rw [newDO_neg _ _ hen2, newDO_neg _ _ hen, refresh_ductOffsets, getD_set_self]
    by_cases hlt : t < p.ductOffsets.length
    · rw [if_pos hlt, newDO_neg _ _ hen]
    · rw [if_neg hlt, List.getD_eq_default _ _ (by omega)]

theorem newPP_step_self (p : Params) (t : ℕ) :
    newPP (refreshTierLimits p t) t = newPP p t := by
  by_cases hen : p.pipeEnabled.getD t false = true
  · have hen2 : (refreshTierLimits p t).pipeEnabled.getD t false = true := by
      rw [refresh_pipeEnabled]
      exact hen
    rw [newPP_pos _ _ hen2, newPP_pos _ _ hen, refresh_depth, refresh_postSize,
      tierHeightFt_refresh, refresh_pipesPerTier, getD_set_self]
    by_cases hlt : t < p.pipesPerTier.length
    · rw [if_pos hlt, newPP_pos _ _ hen, List.map_map]
      exact List.map_congr_left (fun pj _ => clampPipe_idem _ _ _ pj)
    · rw [if_neg hlt, List.getD_eq_default _ _ (by omega), List.map_nil]
  · have hen2 : ¬(refreshTierLimits p t).pipeEnabled.getD t false = true := by
      rw [refresh_pipeEnabled]
      exact hen
    rw [newPP_neg _ _ hen2, newPP_neg _ _ hen, refresh_pipesPerTier, getD_set_self]
    by_cases hlt : t < p.pipesPerTier.length
    · rw [if_pos hlt, newPP_neg _ _ hen]
    · rw [if_neg hlt, List.getD_eq_default _ _ (by omega)]

theorem newDH_step_ne (p : Params) {s t : ℕ} (hst : s ≠ t) :
    newDH (refreshTierLimits p s) t = newDH p t := by
  unfold newDH
  rw [refresh_ductEnabled, tierHeightFt_refresh, refresh_ductHeights,
    getD_set_ne _ _ hst]

theorem newDW_step_ne (p : Params) {s t : ℕ} (hst : s ≠ t) :
    newDW (refreshTierLimits p s) t = newDW p t := by
  unfold newDW
  rw [refresh_ductEnabled, refresh_depth, refresh_postSize, refresh_ductWidths,
    getD_set_ne _ _ hst]

theorem newDO_step_ne (p : Params) {s t : ℕ} (hst : s ≠ t) :
    newDO (refreshTierLimits p s) t = newDO p t := by
  unfold newDO
  rw [refresh_ductEnabled, sideLimit_refresh, newDW_step_ne p hst,
    refresh_ductOffsets, getD_set_ne _ _ hst]

theorem newPP_step_ne (p : Params) {s t : ℕ} (hst : s ≠ t) :
    newPP (refreshTierLimits p s) t = newPP p t := by
  unfold newPP
  rw [refresh_pipeEnabled, refresh_depth, refresh_postSize, tierHeightFt_refresh,
    refresh_pipesPerTier, getD_set_ne _ _ hst]

/-! ## Commutation and idempotence of the per-tier step -/

theorem refresh_idem (p : Params) (t : ℕ) :
    refreshTierLimits (refreshTierLimits p t) t = refreshTierLimits p t := by
  ext1 <;>
    simp only [refresh_corridorWidth, refresh_corridorHeight, refresh_ceilingHeight,
      refresh_bayCount, refresh_bayWidth, refresh_depth, refresh_postSize,
      refresh_beamSize, refresh_topClearance, refresh_tierCount, refresh_tierHeights,
      refresh_ductEnabled, refresh_pipeEnabled, refresh_ductHeights, refresh_ductWidths,
      refresh_ductOffsets, refresh_pipesPerTier, newDH_step_self, newDW_step_self,
      newDO_step_self, newPP_step_self, List.set_set]

theorem refresh_comm (p : Params) (s t : ℕ) :
    refreshTierLimits (refreshTierLimits p s) t =
      refreshTierLimits (refreshTierLimits p t) s := by
  rcases eq_or_ne s t with rfl | hst
  · rfl
  · have hts : t ≠ s := hst.symm
    ext1 <;>
      simp only [refresh_corridorWidth, refresh_corridorHeight, refresh_ceilingHeight,
        refresh_bayCount, refresh_bayWidth, refresh_depth, refresh_postSize,
        refresh_beamSize, refresh_topClearance, refresh_tierCount, refresh_tierHeights,
        refresh_ductEnabled, refresh_pipeEnabled, refresh_ductHeights, refresh_ductWidths,
        refresh_ductOffsets, refresh_pipesPerTier, newDH_step_ne _ hst, newDW_step_ne _ hst,
        newDO_step_ne _ hst, newPP_step_ne _ hst, newDH_step_ne _ hts, newDW_step_ne _ hts,
        newDO_step_ne _ hts, newPP_step_ne _ hts]
    all_goals first
      | rfl
      | exact List.set_comm _ _ _ hst

/-! ## Folding independent per-tier steps -/

theorem foldl_step_comm {α β : Type} {f : α → β → α}
    (comm : ∀ a i j, f (f a i) j = f (f a j) i) :
    ∀ (L : List β) (a : α) (i : β), f (L.foldl f a) i = L.foldl f (f a i) := by
  intro L
  induction L with
  | nil => intro a i; rfl
  | cons j L ih =>
      intro a i
      rw [List.foldl_cons, List.foldl_cons, ih, comm]

theorem foldl_step_idem {α β : Type} {f : α → β → α}
    (idem : ∀ a i, f (f a i) i = f a i)
    (comm : ∀ a i j, f (f a i) j = f (f a j) i) :
    ∀ (L : List β) (a : α), L.foldl f (L.foldl f a) = L.foldl f a := by
  intro L
  induction L with
  | nil => intro a; rfl
  | cons i L ih =>
      intro a
      rw [List.foldl_cons, List.foldl_cons, foldl_step_comm comm L (f a i) i, idem]
      exact ih (f a i)

/-! ## Fields preserved by a whole propagation fold -/

theorem foldl_refresh_corridorWidth :
    ∀ (L : List ℕ) (p : Params),
      (L.foldl refreshTierLimits p).corridorWidth = p.corridorWidth := by
  intro L
  induction L with
  | nil => intro p; rfl
  | cons i L ih => intro p; rw [List.foldl_cons, ih, refresh_corridorWidth]

theorem foldl_refresh_corridorHeight :
    ∀ (L : List ℕ) (p : Params),
      (L.foldl refreshTierLimits p).corridorHeight = p.corridorHeight := by
  intro L
  induction L with
  | nil => intro p; rfl
  | cons i L ih => intro p; rw [List.foldl_cons, ih, refresh_corridorHeight]

theorem foldl_refresh_ceilingHeight :
    ∀ (L : List ℕ) (p : Params),
      (L.foldl refreshTierLimits p).ceilingHeight = p.ceilingHeight := by
  intro L
  induction L with
  | nil => intro p; rfl
  | cons i L ih => intro p; rw [List.foldl_cons, ih, refresh_ceilingHeight]

theorem foldl_refresh_depth :
    ∀ (L : List ℕ) (p : Params),
      (L.foldl refreshTierLimits p).depth = p.depth := by
  intro L
  induction L with
  | nil => intro p; rfl
  | cons i L ih => intro p; rw [List.foldl_cons, ih, refresh_depth]

theorem foldl_refresh_topClearance :
    ∀ (L : List ℕ) (p : Params),
      (L.foldl refreshTierLimits p).topClearance = p.topClearance := by
  intro L
  induction L with
  | nil => intro p; rfl
  | cons i L ih => intro p; rw [List.foldl_cons, ih, refresh_topClearance]

theorem foldl_refresh_tierHeights :
    ∀ (L : List ℕ) (p : Params),
      (L.foldl refreshTierLimits p).tierHeights = p.tierHeights := by
  intro L
  induction L with
  | nil => intro p; rfl
  | cons i L ih => intro p; rw [List.foldl_cons, ih, refresh_tierHeights]

/-! ## Idempotence of `updateGlobals` -/

theorem updateGlobals_eq (p : Params) :
    updateGlobals p =
      (List.range p.tierHeights.length).foldl refreshTierLimits
        { p with
          topClearance := clampQ p.topClearance
            (max 1 (p.corridorHeight - p.ceilingHeight)) p.corridorHeight
          depth := min p.depth p.corridorWidth } := rfl

theorem updateGlobals_idem (p : Params) :
    updateGlobals (updateGlobals p) = updateGlobals p := by
  have hcw : (updateGlobals p).corridorWidth = p.corridorWidth := by
    rw [updateGlobals_eq, foldl_refresh_corridorWidth]
  have hch : (updateGlobals p).corridorHeight = p.corridorHeight := by
    rw [updateGlobals_eq, foldl_refresh_corridorHeight]
  have hceil : (updateGlobals p).ceilingHeight = p.ceilingHeight := by
    rw [updateGlobals_eq, foldl_refresh_ceilingHeight]
  have htop : (updateGlobals p).topClearance =
      clampQ p.topClearance (max 1 (p.corridorHeight - p.ceilingHeight))
        p.corridorHeight := by
    rw [updateGlobals_eq, foldl_refresh_topClearance]
  have hdep : (updateGlobals p).depth = min p.depth p.corridorWidth := by
    rw [updateGlobals_eq, foldl_refresh_depth]
  have hth : (updateGlobals p).tierHeights = p.tierHeights := by
    rw [updateGlobals_eq, foldl_refresh_tierHeights]
  have e1 : clampQ (updateGlobals p).topClearance
      (max 1 ((updateGlobals p).corridorHeight - (updateGlobals p).ceilingHeight))
      (updateGlobals p).corridorHeight = (updateGlobals p).topClearance := by
    rw [htop, hch, hceil]
    exact clampQ_idem _ _ _
  have e2 : min (updateGlobals p).depth (updateGlobals p).corridorWidth =
      (updateGlobals p).depth := by
    rw [hdep, hcw, min_assoc, min_self]
  rw [updateGlobals_eq (updateGlobals p), e1, e2]
  have e3 : ({ updateGlobals p with
      topClearance := (updateGlobals p).topClearance
      depth := (updateGlobals p).depth } : Params) = updateGlobals p := rfl
  rw [e3, hth]
  conv_rhs => rw [updateGlobals_eq p]
  rw [updateGlobals_eq p]
  exact foldl_step_idem refresh_idem refresh_comm _ _

/-! ## C4: running the propagation twice changes nothing -/

/-- C4: `updateGlobals` (clamp `topClearance` and `depth`, then
`refreshTierLimits` on every tier) is idempotent: a second run with no
intervening edit returns the identical parameter aggregate and the
identical geometry list. -/
theorem C4_propagation_idempotent (p : Params) :
    updateGlobals (updateGlobals p) = updateGlobals p ∧
    geometryList (updateGlobals (updateGlobals p)) = geometryList (updateGlobals p) :=
  ⟨updateGlobals_idem p, congrArg geometryList (updateGlobals_idem p)⟩

/-! ## C6: what the propagator really does to pipe vertical offsets -/

/-- C6 counterexample: on the tier with clear height 24 in, the enabled
4-inch pipe's stored vertical offset 22 in survives `refreshTierLimits`
unchanged, although the claimed clamp range `[0, 24 - 4]` excludes it. -/
theorem C6_counterexample :
    ft2in (tierHeightFt c6P 1) = 24 ∧
    (((refreshTierLimits c6P 0).pipesPerTier.getD 0 []).getD 0 defaultPipe).diam = 4 ∧
    (((refreshTierLimits c6P 0).pipesPerTier.getD 0 []).getD 0 defaultPipe).vert = 22 ∧
    ¬(((refreshTierLimits c6P 0).pipesPerTier.getD 0 []).getD 0 defaultPipe).vert ≤
      ft2in (tierHeightFt c6P 1) - 4 := by
  have h1 : (refreshTierLimits c6P 0).pipesPerTier.getD 0 [] = newPP c6P 0 :=
    refresh_pipesPerTier_getD c6P 0 (by decide)
  have h2 : newPP c6P 0 = [⟨4, 0, 22⟩] := by
    rw [newPP_pos c6P 0 (by decide)]
    norm_num [c6P, demoP, clampPipe, clampQ, tierHeightFt, ft2in, min_def, max_def]
  rw [h1, h2]
  norm_num [c6P, demoP, tierHeightFt, ft2in]

/-- C6 (amended): `refreshTierLimits` caps each enabled pipe's vertical
offset only from above, at `max 1 (tier clear height in inches)` — the
diameter is not subtracted and no lower clamp at 0 is applied — and it
leaves the diameter unchanged. -/
theorem C6_amended_vert_cap (p : Params) (t : ℕ)
    (hen : p.pipeEnabled.getD t false = true)
    (hlen : t < p.pipesPerTier.length) :
    ∀ i, i < (p.pipesPerTier.getD t []).length →
      (((refreshTierLimits p t).pipesPerTier.getD t []).getD i defaultPipe).vert =
        min ((p.pipesPerTier.getD t []).getD i defaultPipe).vert
          (max 1 (ft2in (tierHeightFt p (t + 1)))) ∧
      (((refreshTierLimits p t).pipesPerTier.getD t []).getD i defaultPipe).diam =
        ((p.pipesPerTier.getD t []).getD i defaultPipe).diam := by
  intro i hi
  rw [refresh_pipesPerTier_getD p t hlen, newPP_pos p t hen]
  have hi2 : i < ((p.pipesPerTier.getD t []).map
      (clampPipe p.depth p.postSize (tierHeightFt p (t + 1)))).length := by
    simpa using hi
  rw [List.getD_eq_getElem _ _ hi2, List.getElem_map, List.getD_eq_getElem _ _ hi]
  exact ⟨rfl, rfl⟩

/-- Witness for the amended C6 at the 24-inch tier: the stored offset
22 equals `min 22 (max 1 24)`. -/
theorem C6_witness :
    c6P.pipeEnabled.getD 0 false = true ∧
    (((refreshTierLimits c6P 0).pipesPerTier.getD 0 []).getD 0 defaultPipe).vert =
      min ((c6P.pipesPerTier.getD 0 []).getD 0 defaultPipe).vert
        (max 1 (ft2in (tierHeightFt c6P 1))) :=
  ⟨by decide, (C6_amended_vert_cap c6P 0 (by decide) (by decide) 0 (by decide)).1⟩

/-! ## C7: degenerate ducts are still emitted -/

theorem ductPrimsAux_length (p : Params) :
    ∀ (l : List Bool) (i : ℕ),
      (ductPrimsAux p i l).length = (l.filter (fun b => b)).length := by
  intro l
  induction l with
  | nil => intro i; rfl
  | cons en rest ih =>
      intro i
      cases en <;> simp [ductPrimsAux, ih]

/-- C7 counterexample: the enabled tier-1 duct of width 0 keeps width 0
through the clamp pass, yet the rebuild still emits exactly one duct
primitive for it — a zero-width box — instead of omitting it. -/
theorem C7_counterexample :
    c7P.ductEnabled.getD 0 false = true ∧
    (refreshTierLimits c7P 0).ductWidths.getD 0 0 ≤ 0 ∧
    (ductPrims (refreshTierLimits c7P 0)).length = 1 ∧
    (∃ b, ductPrims (refreshTierLimits c7P 0) = [Prim.duct 1 b] ∧ b.sz = 0) := by
  have hw : (refreshTierLimits c7P 0).ductWidths.getD 0 0 = 0 := by
    rw [refresh_ductWidths_getD c7P 0 (by decide), newDW_pos c7P 0 (by decide)]
    norm_num [c7P, demoP, ft2in, min_def, max_def]
  have hen : (refreshTierLimits c7P 0).ductEnabled = [true, false] := by
    rw [refresh_ductEnabled]
    decide
  have hducts : ductPrims (refreshTierLimits c7P 0) =
      [Prim.duct 1 (buildDuctBox (refreshTierLimits c7P 0) 1
        ((refreshTierLimits c7P 0).ductWidths.getD 0 0)
        ((refreshTierLimits c7P 0).ductHeights.getD 0 0)
        ((refreshTierLimits c7P 0).ductOffsets.getD 0 0))] := by
    rw [ductPrims, hen]
    simp [ductPrimsAux]
  refine ⟨by decide, le_of_eq hw, ?_, ?_⟩
  · rw [hducts]
    rfl
  · refine ⟨_, hducts, ?_⟩
    show in2m ((refreshTierLimits c7P 0).ductWidths.getD 0 0) = 0
    rw [hw]
    norm_num [in2m]

/-- C7 (amended): the rebuild never omits a duct: it emits exactly one
duct primitive per enabled tier, whatever the clamped width and height
are (degenerate sizes included), and reports nothing. -/
theorem C7_amended_no_omission (p : Params) :
    (ductPrims p).length = (p.ductEnabled.filter (fun b => b)).length :=
  ductPrimsAux_length p p.ductEnabled 0

/-! ## C8: post count, size and vertical placement -/

theorem length_flatMap_two {α β : Type} (F : α → List β) (h : ∀ a, (F a).length = 2) :
    ∀ l : List α, (l.flatMap F).length = 2 * l.length := by
  intro l
  induction l with
  | nil => rfl
  | cons a l ih =>
      rw [List.flatMap_cons, List.length_append, h, ih, List.length_cons]
      ring

theorem rackPosts_length (p : Params) : (rackPosts p).length = 2 * (p.bayCount + 1) := by
  unfold rackPosts
  rw [length_flatMap_two _ (fun bay => by rfl), List.length_range]

theorem rackPosts_mem (p : Params) :
    ∀ b ∈ rackPosts p, b.y = postCenterY p ∧ b.sx = in2m p.postSize ∧
      b.sy = rackTotalH p ∧ b.sz = in2m p.postSize := by
  intro b hb
  unfold rackPosts at hb
  rw [List.mem_flatMap] at hb
  obtain ⟨bay, _, hb⟩ := hb
  simp only [List.map_cons, List.map_nil, List.mem_cons, List.not_mem_nil,
    or_false] at hb
  rcases hb with rfl | rfl <;> exact ⟨rfl, rfl, rfl, rfl⟩

/-- C8 counterexample: at the demo defaults the first emitted post's
bottom face sits at 3.2512 m, not at the floor `Y = 0`, and its top face
sits half a beam below the roof level, not at the roof level. -/
theorem C8_counterexample :
    ((rackPosts demoP).getD 0 ⟨0, 0, 0, 0, 0, 0⟩).y -
        ((rackPosts demoP).getD 0 ⟨0, 0, 0, 0, 0, 0⟩).sy / 2 ≠ 0 ∧
    ((rackPosts demoP).getD 0 ⟨0, 0, 0, 0, 0, 0⟩).y +
        ((rackPosts demoP).getD 0 ⟨0, 0, 0, 0, 0, 0⟩).sy / 2 ≠
      ft2m demoP.topClearance - in2m demoP.beamSize / 2 := by
  have hy : ((rackPosts demoP).getD 0 ⟨0, 0, 0, 0, 0, 0⟩).y = postCenterY demoP := rfl
  have hsy : ((rackPosts demoP).getD 0 ⟨0, 0, 0, 0, 0, 0⟩).sy = rackTotalH demoP := rfl
  rw [hy, hsy]
  constructor <;> norm_num [postCenterY, rackTotalH, demoP, ft2m, in2m, FT2M, IN2M]

/-- C8 (amended): `buildRack` emits exactly `2*(bayCount+1)` posts, each
a `postSize × totalHeight × postSize` box with
`totalHeight = Σ tierHeights + (tierCount-1)·beamSize`; each post's top
face sits one beam thickness below `topClearance` (half a beam below the
roof level) and its bottom face sits at the top face of the lowest
bottom beam — at the floor only when `topClearance` happens to equal
`Σ tierHeights + tierCount·beamSize`. -/
theorem C8_amended (p : Params) (hlen : p.tierHeights.length = p.tierCount) :
    (rackPosts p).length = 2 * (p.bayCount + 1) ∧
    ∀ b ∈ rackPosts p,
      b.sx = in2m p.postSize ∧ b.sy = rackTotalH p ∧ b.sz = in2m p.postSize ∧
      b.y + rackTotalH p / 2 = ft2m p.topClearance - in2m p.beamSize ∧
      b.y - rackTotalH p / 2 = bottomBeamCenterY p p.tierCount + in2m p.beamSize / 2 := by
  refine ⟨rackPosts_length p, ?_⟩
  intro b hb
  obtain ⟨hy, hsx, hsy, hsz⟩ := rackPosts_mem p b hb
  refine ⟨hsx, hsy, hsz, ?_, ?_⟩
  · rw [hy]
    unfold postCenterY rackTotalH
    ring
  · rw [hy, bottomBeamCenterY_closed]
    have htake : (p.tierHeights.map ft2m).take p.tierCount = p.tierHeights.map ft2m :=
      List.take_of_length_le (by simp [hlen])
    rw [htake]
    unfold postCenterY rackTotalH
    ring

/-- Witness for the amended C8 at the demo aggregate. -/
theorem C8_witness :
    demoP.tierHeights.length = demoP.tierCount ∧
    (rackPosts demoP).length = 2 * (demoP.bayCount + 1) :=
  ⟨by decide, (C8_amended demoP (by decide)).1⟩

end RackDemo
